import Mathlib

/-!
Verification development for the CSV/image RAG ingestion pipeline
(`rag_processor.py`, `utils.py` and the `data_ops` collaborators).

The Python source is shallowly embedded: pandas data frames become lists
of rows, uploaded files become plain records of name and size, and the
external collaborators (embedding service, object store, database) become
oracle functions supplied as parameters. Functions imported by
`rag_processor.py` from `data_ops` but absent from the repository
(`create_s3_folder`, `upload_csv_to_s3`, `process_image_record`) are
modelled from the specification; their doc comments say so explicitly.
-/

namespace RagIngest

/-- Configured allowed image extensions (`config.SUPPORTED_IMAGE_FORMATS`). -/
def SUPPORTED_IMAGE_FORMATS : List String := ["png", "jpg", "jpeg"]

/-- Configured maximum file size in megabytes (`config.MAX_FILE_SIZE_MB`). -/
def MAX_FILE_SIZE_MB : Nat := 200

/-- One uploaded image file: a filename and a byte size.  The raw bytes
play no role in the control flow being verified, so they are omitted. -/
structure Blob where
  name : String
  size : Nat
  deriving Repr, DecidableEq

/-- One row of the parsed CSV table (`image_name` and `value` columns). -/
structure Row where
  image_name : String
  value : String
  deriving Repr, DecidableEq

/-- The parsed data frame: column names plus rows. -/
structure Frame where
  columns : List String
  rows : List Row
  deriving Repr, DecidableEq

/-- The uploaded CSV file: byte size plus the outcome of parsing it
(`pd.read_csv` either yields a frame or raises). -/
structure CsvFile where
  size : Nat
  parse : Except String Frame

/-- A matched CSV record joined with its image, as built by
`match_csv_with_images` (`utils.py` lines 114 to 118). -/
structure MatchedRecord where
  image_name : String
  description : String
  image_file : Blob
  deriving Repr, DecidableEq

/-- Python `str.replace` on character lists, fuelled so that it is
structurally recursive (the fuel is the input length, which bounds the
number of scanning steps): replace every non-overlapping occurrence of
`pat` by `rep`, scanning left to right. -/
def replaceFuel (pat rep : List Char) : Nat → List Char → List Char
  | 0, s => s
  | _ + 1, [] => []
  | fuel + 1, c :: rest =>
    if pat ≠ [] ∧ pat.isPrefixOf (c :: rest) then
      rep ++ replaceFuel pat rep fuel (rest.drop (pat.length - 1))
    else
      c :: replaceFuel pat rep fuel rest

/-- Python `str.replace` lifted to `String`. -/
def pyReplace (s pat rep : String) : String :=
  ⟨replaceFuel pat.data rep.data s.data.length s.data⟩

/-- Lowercase one character, as Python `str.lower` does on ASCII. -/
def charLower (c : Char) : Char :=
  if ('A' ≤ c ∧ c ≤ 'Z') then Char.ofNat (c.toNat + 32) else c

/-- Python `str.lower` (ASCII fragment) lifted to `String`. -/
def pyLower (s : String) : String :=
  ⟨s.data.map charLower⟩

/-- Python `str.split` on a single dot: `"a.b"` yields `["a", "b"]`,
the empty string yields `[""]`, a leading dot yields a leading empty
piece.  Structurally recursive so that concrete inputs evaluate. -/
def splitDots : List Char → List (List Char)
  | [] => [[]]
  | c :: rest =>
    let r := splitDots rest
    if c = '.' then [] :: r
    else
      match r with
      | [] => [[c]]
      | h :: t => (c :: h) :: t

/-- Last element of a list of character lists, with a default. -/
def lastPiece (d : List Char) : List (List Char) → List Char
  | [] => d
  | [a] => a
  | _ :: b :: t => lastPiece d (b :: t)

/-- Python `str.strip`: drop whitespace from both ends. -/
def pyStrip (s : String) : String :=
  ⟨((s.data.dropWhile Char.isWhitespace).reverse.dropWhile Char.isWhitespace).reverse⟩

/-- Join a list of strings with newline separators, as
`"\n".join(errors)` does. -/
def joinLines : List String → String
  | [] => ""
  | [a] => a
  | a :: b :: t => a ++ "\n" ++ joinLines (b :: t)

/-- The lookup key the matcher derives from an image filename
(`utils.py` line 101): remove every occurrence of the substrings
`.jpg`, `.jpeg`, `.png`, in that order. -/
def imgKey (name : String) : String :=
  pyReplace (pyReplace (pyReplace name (".jpg") ("")) (".jpeg") ("")) (".png") ("")

/-- The key derivation as the specification words it: the filename with
its extension stripped, i.e. everything before the final dot.  Used only
to compare the specification against the source derivation `imgKey`. -/
def specStripExt (name : String) : String :=
  let parts := splitDots name.data
  if parts.length ≤ 1 then name
  else ⟨(parts.dropLast.map (fun p => p ++ ['.'])).flatten.dropLast⟩

/-- Python-dict insertion on an association list: overwrite the value in
place when the key is already present (keeping its original position),
otherwise append the new pair at the end. -/
def dictInsert : List (String × Blob) → String → Blob → List (String × Blob)
  | [], k, v => [(k, v)]
  | p :: t, k, v => if p.1 = k then (k, v) :: t else p :: dictInsert t k v

/-- Python-dict lookup on an association list. -/
def dictFind : List (String × Blob) → String → Option Blob
  | [], _ => none
  | p :: t, k => if p.1 = k then some p.2 else dictFind t k

/-- The image lookup dictionary built by `match_csv_with_images`
(`utils.py` lines 98 to 102). -/
def image_lookup (imgs : List Blob) : List (String × Blob) :=
  imgs.foldl (fun m b => dictInsert m (imgKey b.name) b) []

/-- Missing-image warning for a CSV row (`utils.py` line 121). -/
def rowMissingMsg (name : String) : String :=
  "❌ Missing image for CSV record: " ++ name

/-- Missing-record warning for an image key (`utils.py` line 128). -/
def keyMissingMsg (k : String) : String :=
  "❌ Missing CSV record for image: " ++ k ++ ".jpg"

/-- The per-row loop of `match_csv_with_images` (`utils.py` lines
108 to 123): trim the key and description, look the key up, and emit
either a matched record or a missing-image warning. -/
def matchRowsLoop (lookup : List (String × Blob)) :
    List Row → List MatchedRecord × List String
  | [] => ([], [])
  | row :: rest =>
    let image_name := pyStrip row.image_name
    let description := pyStrip row.value
    let tail := matchRowsLoop lookup rest
    match dictFind lookup image_name with
    | some img =>
      (⟨image_name, description, img⟩ :: tail.1, tail.2)
    | none =>
      (tail.1, rowMissingMsg image_name :: tail.2)

/-- `match_csv_with_images` (`utils.py` lines 87 to 135): build the image
lookup, walk the rows, then report every lookup key not referenced by any
matched record. -/
def match_csv_with_images (df : Frame) (imgs : List Blob) :
    List MatchedRecord × List String :=
  let lookup := image_lookup imgs
  let rowsOut := matchRowsLoop lookup df.rows
  let missKeys :=
    ((lookup.map (fun p => p.1)).filter
      (fun k => !(rowsOut.1.any (fun r => r.image_name == k)))).map keyMissingMsg
  (rowsOut.1, rowsOut.2 ++ missKeys)

/-- The extension extracted from a filename by `validate_images`
(`utils.py` line 63): lowercase the name, split on dots, take the last
piece. -/
def extOf (b : Blob) : String :=
  ⟨lastPiece [] (splitDots (pyLower b.name).data)⟩

/-- The per-blob rejection reason of `validate_images` (`utils.py` lines
62 to 71), or `none` when the blob passes both checks. -/
def imageReject (b : Blob) : Option String :=
  if !(SUPPORTED_IMAGE_FORMATS.contains (extOf b)) then
    some (b.name ++ ": Unsupported format. Use: " ++ toString SUPPORTED_IMAGE_FORMATS)
  else if b.size > MAX_FILE_SIZE_MB * 1024 * 1024 then
    some (b.name ++ ": File too large. Max: " ++ toString MAX_FILE_SIZE_MB ++ "MB")
  else
    none

/-- `validate_images` (`utils.py` lines 47 to 85).  Returns the validity
flag, the message, and the kept blobs.  The source accumulates `errors`
and `validated_images` in one pass; here the same two lists are produced
by `filterMap` and `filter` over the same per-blob check. -/
def validate_images (uploaded_images : List Blob) :
    Bool × String × List Blob :=
  if uploaded_images = [] then
    (false, "No images uploaded", [])
  else
    let errors := uploaded_images.filterMap imageReject
    let validated := uploaded_images.filter (fun b => (imageReject b).isNone)
    if errors = [] then
      (true, "Valid", validated)
    else
      (decide (0 < validated.length),
        "Image validation errors:\n" ++ joinLines errors,
        validated)

/-- `validate_csv_file` (`utils.py` lines 11 to 45): size gate, parse,
required-column check, emptiness check.  The Python triple
`(is_valid, error_message, dataframe)` is rendered as `Except`: the frame
is present exactly when validation succeeds. -/
def validate_csv_file (csv_file : CsvFile) : Except String Frame :=
  if csv_file.size > MAX_FILE_SIZE_MB * 1024 * 1024 then
    .error ("CSV file too large. Max size: " ++ toString MAX_FILE_SIZE_MB ++ "MB")
  else
    match csv_file.parse with
    | .error e => .error ("CSV validation error: " ++ e)
    | .ok df =>
      let missing := (["image_name", "value"]).filter (fun c => !(df.columns.contains c))
      if missing ≠ [] then
        .error ("Missing required columns: " ++ toString missing)
      else if df.rows = [] then
        .error ("CSV file is empty")
      else
        .ok df

/-- The `processing_results` aggregate initialised by
`RAGProcessor.__init__` (`rag_processor.py` lines 15 to 25).  These are
exactly the keys of the Python dictionary; the dictionary has no
`skipped` and no `skipped_items` entry. -/
structure ProcessingResults where
  total_records : Nat
  successful : Nat
  failed : Nat
  processing_time : Nat
  errors : List String
  success_items : List String
  s3_folder : String
  csv_s3_url : String
  deriving Repr, DecidableEq

/-- The zeroed aggregate a fresh `RAGProcessor` starts from. -/
def initResults : ProcessingResults :=
  ⟨0, 0, 0, 0, [], [], "", ""⟩

/-- The relational store keyed by `image_name`, seen through the
existence check: the set of keys already persisted. -/
abbrev Store : Type := List String

/-- Counters for the observable calls made to the external
collaborators during one workflow run: folder creations, CSV uploads,
embedding calls, image uploads, database inserts, and skip events
(existence checks that found the key already present). -/
structure Effects where
  folder_creates : Nat
  csv_uploads : Nat
  embeds : Nat
  image_uploads : Nat
  inserts : Nat
  skips : Nat
  deriving Repr, DecidableEq

/-- All-zero effect counters. -/
def noEffects : Effects := ⟨0, 0, 0, 0, 0, 0⟩

/-- Oracles for the external collaborators: the embedding service, the
object-store uploader, the database insert, and the CSV manifest upload.
An `Except.error` value models the corresponding Python exception. -/
structure Collab where
  embed : String → Except String Unit
  upload_image : String → Except String String
  insert : String → Bool
  upload_csv : Except String String

/-- Modelled from the spec: `process_image_record` is imported by
`rag_processor.py` from `data_ops` but is absent from the repository.
Following specification sections 4.5, 4.6 and 7: check existence by
`image_name` first and, when the key is already present, make no
embedding, upload, or insert call (a skip is a no-op, not an error, so
the returned success flag is true); otherwise embed, upload, and insert
in order, each collaborator failure turning into a `(False, reason)`
return.  A successful insert adds the key to the store. -/
def process_image_record (c : Collab) (record : MatchedRecord)
    (s3_folder : String) (st : Store) (eff : Effects) :
    (Bool × String) × Store × Effects :=
  if List.contains st record.image_name then
    ((true, "Already exists - skipped"), st, { eff with skips := eff.skips + 1 })
  else
    match c.embed record.image_name with
    | .error e =>
      ((false, e), st, { eff with embeds := eff.embeds + 1 })
    | .ok _ =>
      match c.upload_image (s3_folder ++ "/" ++ record.image_name) with
      | .error e =>
        ((false, e), st,
          { eff with embeds := eff.embeds + 1, image_uploads := eff.image_uploads + 1 })
      | .ok _url =>
        let eff1 := { eff with
          embeds := eff.embeds + 1
          image_uploads := eff.image_uploads + 1
          inserts := eff.inserts + 1 }
        if c.insert record.image_name then
          ((true, ""), record.image_name :: st, eff1)
        else
          ((false, "Database insert failed"), st, eff1)

/-- Outcome of one call to `process_image_record` as observed by the
orchestrator loop (`rag_processor.py` lines 112 to 128): a returned
success, a returned failure message, or a raised exception. -/
inductive StepOutcome where
  | ok : StepOutcome
  | err : String → StepOutcome
  | exn : String → StepOutcome
  deriving Repr, DecidableEq

/-- How one record outcome updates the aggregate
(`rag_processor.py` lines 115 to 128). -/
def applyOutcome (res : ProcessingResults) (name : String) :
    StepOutcome → ProcessingResults
  | .ok =>
    { res with
      successful := res.successful + 1
      success_items := res.success_items ++ [name] }
  | .err m =>
    { res with
      failed := res.failed + 1
      errors := res.errors ++ [name ++ ": " ++ m] }
  | .exn m =>
    { res with
      failed := res.failed + 1
      errors := res.errors ++ [name ++ ": Unexpected error - " ++ m] }

/-- The per-record loop of `process_records` (`rag_processor.py` lines
109 to 128), parametric in the per-record step.  The step receives the
record and the external state (store, effect counters, or anything else)
and reports an outcome; the loop applies the outcome to the aggregate
and moves on to the next record, regardless of the outcome. -/
def processLoop {σ : Type} (step : MatchedRecord → σ → StepOutcome × σ) :
    List MatchedRecord → ProcessingResults → σ → ProcessingResults × σ
  | [], res, s => (res, s)
  | r :: rest, res, s =>
    let p := step r s
    processLoop step rest (applyOutcome res r.image_name p.1) p.2

/-- `RAGProcessor.process_records` (`rag_processor.py` lines 97 to 141):
set `total_records` to the matched count, run the loop, then report
overall success exactly when at least one record succeeded.  Wall-clock
`processing_time` is not modelled and stays unchanged. -/
def process_records {σ : Type} (step : MatchedRecord → σ → StepOutcome × σ)
    (matched : List MatchedRecord) (res : ProcessingResults) (s : σ) :
    (ProcessingResults × Bool × String) × σ :=
  let res0 := { res with total_records := matched.length }
  let out := processLoop step matched res0 s
  if 0 < out.1.successful then
    ((out.1, true,
      "Processing completed: " ++ toString out.1.successful ++ "/" ++
        toString out.1.total_records ++ " successful"), out.2)
  else
    ((out.1, false, "Processing failed: No records were processed successfully"), out.2)

/-- The step `run_full_workflow` feeds to the loop: call
`process_image_record` and translate its boolean result into an
outcome, threading the store and the effect counters
(`rag_processor.py` line 113). -/
def workflowStep (c : Collab) (s3_folder : String)
    (rec : MatchedRecord) (s : Store × Effects) : StepOutcome × (Store × Effects) :=
  let r := process_image_record c rec s3_folder s.1 s.2
  (if r.1.1 then .ok else .err r.1.2, r.2)

/-- `RAGProcessor.match_data` (`rag_processor.py` lines 49 to 69): run
the matcher; with zero matched records return the failure flag at once
(note: in that case the missing-item messages are not stored); otherwise
extend `errors` with the missing-item messages and report the count. -/
def match_data (df : Frame) (validated : List Blob) (res : ProcessingResults) :
    (Bool × String) × ProcessingResults × List MatchedRecord :=
  let m := match_csv_with_images df validated
  if m.1 = [] then
    ((false, "No matching records found between CSV and images"), res, m.1)
  else
    ((true, "Found " ++ toString m.1.length ++ " matching records"),
      { res with errors := res.errors ++ m.2 }, m.1)

/-- Modelled from the spec: `create_s3_folder` is imported from
`data_ops` but absent from the repository.  Specification section 4.4:
a folder path from the configured folder name fragment plus the current
timestamp; the timestamp is passed explicitly here. -/
def create_s3_folder (ts : String) : String :=
  "RAG_Update_" ++ ts

/-- `RAGProcessor.setup_s3_storage` (`rag_processor.py` lines 71 to 95):
create the folder, record it in the aggregate, upload the CSV manifest
(a `upload_csv_to_s3` call, absent from the repository and modelled as
the `upload_csv` oracle), and catch any exception of the block as an
`S3 setup failed` result.  Note the folder path is recorded before the
upload, so it stays recorded even when the upload fails. -/
def setup_s3_storage (c : Collab) (ts : String) (res : ProcessingResults)
    (eff : Effects) : (Bool × String) × ProcessingResults × Effects :=
  let folder := create_s3_folder ts
  let res1 := { res with s3_folder := folder }
  let eff1 := { eff with folder_creates := eff.folder_creates + 1 }
  match c.upload_csv with
  | .error e =>
    ((false, "S3 setup failed: " ++ e), res1,
      { eff1 with csv_uploads := eff1.csv_uploads + 1 })
  | .ok url =>
    ((true, "S3 folder created: " ++ folder), { res1 with csv_s3_url := url },
      { eff1 with csv_uploads := eff1.csv_uploads + 1 })

/-- `RAGProcessor.validate_inputs` (`rag_processor.py` lines 27 to 47):
validate the CSV, then the images; the first failure wins and is
prefixed with its source.  On success both the frame and the kept image
list are available to the later stages. -/
def validate_inputs (csv_file : CsvFile) (uploaded_images : List Blob) :
    Except String (Frame × List Blob) :=
  match validate_csv_file csv_file with
  | .error e => .error ("CSV Error: " ++ e)
  | .ok df =>
    let v := validate_images uploaded_images
    if v.1 then .ok (df, v.2.2) else .error ("Images Error: " ++ v.2.1)

/-- The body of `run_full_workflow` inside its `try` block
(`rag_processor.py` lines 152 to 183).  The `Except` error carries the
exception message together with the aggregate and counters at the point
of the raise; every stage below handles its own failures, so the body in
fact never raises. -/
def run_full_workflow_body (c : Collab) (ts : String) (csv_file : CsvFile)
    (uploaded_images : List Blob) (st : Store) :
    Except (String × ProcessingResults × Effects × Store)
      (ProcessingResults × Effects × Store) :=
  let res := initResults
  let eff := noEffects
  match validate_inputs csv_file uploaded_images with
  | .error e =>
    .ok ({ res with errors := res.errors ++ ["Validation Error: " ++ e] }, eff, st)
  | .ok (df, validated) =>
    let m := match_data df validated res
    if m.1.1 = false then
      .ok ({ m.2.1 with errors := m.2.1.errors ++ ["Matching Error: " ++ m.1.2] }, eff, st)
    else
      let s3 := setup_s3_storage c ts m.2.1 eff
      if s3.1.1 = false then
        .ok ({ s3.2.1 with errors := s3.2.1.errors ++ ["S3 Error: " ++ s3.1.2] },
          s3.2.2, st)
      else
        let pr := process_records (workflowStep c s3.2.1.s3_folder) m.2.2 s3.2.1 (st, s3.2.2)
        .ok (pr.1.1, pr.2.2, pr.2.1)

/-- `RAGProcessor.run_full_workflow` (`rag_processor.py` lines 143 to
189): run the body; the outer exception handler appends the
`Workflow failed with unexpected error` diagnostic and still returns the
aggregate. -/
def run_full_workflow (c : Collab) (ts : String) (csv_file : CsvFile)
    (uploaded_images : List Blob) (st : Store) :
    ProcessingResults × Effects × Store :=
  match run_full_workflow_body c ts csv_file uploaded_images st with
  | .ok out => out
  | .error x =>
    ({ x.2.1 with
        errors := x.2.1.errors ++ ["Workflow failed with unexpected error: " ++ x.1] },
      x.2.2.1, x.2.2.2)

/-! ### Helper lemmas about the per-record loop -/

theorem applyOutcome_total_records (res : ProcessingResults) (name : String)
    (o : StepOutcome) : (applyOutcome res name o).total_records = res.total_records := by
  cases o <;> rfl

theorem applyOutcome_succ_add_failed (res : ProcessingResults) (name : String)
    (o : StepOutcome) :
    (applyOutcome res name o).successful + (applyOutcome res name o).failed
      = res.successful + res.failed + 1 := by
  cases o <;> simp [applyOutcome] <;> omega

theorem processLoop_total_records {σ : Type} (step : MatchedRecord → σ → StepOutcome × σ) :
    ∀ (l : List MatchedRecord) (res : ProcessingResults) (s : σ),
      (processLoop step l res s).1.total_records = res.total_records
  | [], _, _ => rfl
  | r :: rest, res, s => by
    simp only [processLoop]
    rw [processLoop_total_records step rest, applyOutcome_total_records]

theorem processLoop_conserve {σ : Type} (step : MatchedRecord → σ → StepOutcome × σ) :
    ∀ (l : List MatchedRecord) (res : ProcessingResults) (s : σ),
      (processLoop step l res s).1.successful + (processLoop step l res s).1.failed
        = res.successful + res.failed + l.length
  | [], _, _ => rfl
  | r :: rest, res, s => by
    simp only [processLoop, List.length_cons]
    rw [processLoop_conserve step rest, applyOutcome_succ_add_failed]
    omega

theorem processLoop_errors_mono {σ : Type} (step : MatchedRecord → σ → StepOutcome × σ) :
    ∀ (l : List MatchedRecord) (res : ProcessingResults) (s : σ),
      ∃ t, (processLoop step l res s).1.errors = res.errors ++ t
  | [], res, _ => ⟨[], (List.append_nil res.errors).symm⟩
  | r :: rest, res, s => by
    simp only [processLoop]
    obtain ⟨t, ht⟩ :=
      processLoop_errors_mono step rest (applyOutcome res r.image_name (step r s).1) (step r s).2
    rw [ht]
    cases h : (step r s).1 <;>
      simp [applyOutcome, List.append_assoc]

theorem processLoop_success_items {σ : Type} (step : MatchedRecord → σ → StepOutcome × σ) :
    ∀ (l : List MatchedRecord) (res : ProcessingResults) (s : σ),
      res.successful = res.success_items.length →
      (processLoop step l res s).1.successful
        = (processLoop step l res s).1.success_items.length
  | [], _, _, h => h
  | r :: rest, res, s, h => by
    simp only [processLoop]
    apply processLoop_success_items step rest
    cases (step r s).1 <;> simp [applyOutcome, h]

theorem process_records_fst {σ : Type} (step : MatchedRecord → σ → StepOutcome × σ)
    (matched : List MatchedRecord) (res : ProcessingResults) (s : σ) :
    (process_records step matched res s).1.1
      = (processLoop step matched { res with total_records := matched.length } s).1 := by
  simp only [process_records]
  split <;> rfl

/-! ### Helper lemmas about the image lookup dictionary -/

theorem dictFind_dictInsert_self (m : List (String × Blob)) (k : String) (v : Blob) :
    dictFind (dictInsert m k v) k = some v := by
  induction m with
  | nil => simp [dictInsert, dictFind]
  | cons p t ih =>
    by_cases hp : p.1 = k
    · simp [dictInsert, dictFind, hp]
    · simp [dictInsert, dictFind, hp, ih]

theorem dictFind_dictInsert_other (m : List (String × Blob)) (k1 k2 : String)
    (v : Blob) (h : k1 ≠ k2) :
    dictFind (dictInsert m k1 v) k2 = dictFind m k2 := by
  induction m with
  | nil => simp [dictInsert, dictFind, h]
  | cons p t ih =>
    by_cases hp : p.1 = k1
    · simp [dictInsert, dictFind, hp, h, ih]
    · by_cases hp2 : p.1 = k2
      · simp [dictInsert, dictFind, hp, hp2, Ne.symm h]
      · simp [dictInsert, dictFind, hp, hp2, ih]

theorem getLast?_cons_or {α : Type} (l : List α) (a : α) :
    (a :: l).getLast? = l.getLast?.or (some a) := by
  induction l generalizing a with
  | nil => rfl
  | cons b t ih =>
    rw [List.getLast?_cons_cons, ih b]
    cases h : t.getLast? <;> simp [ih]

theorem dictFind_image_lookup_aux :
    ∀ (imgs : List Blob) (m : List (String × Blob)) (k : String),
      dictFind (imgs.foldl (fun acc b => dictInsert acc (imgKey b.name) b) m) k
        = ((imgs.filter (fun b => imgKey b.name == k)).getLast?).or (dictFind m k)
  | [], m, k => by simp
  | b :: rest, m, k => by
    simp only [List.foldl_cons, List.filter_cons]
    by_cases hb : imgKey b.name = k
    · rw [dictFind_image_lookup_aux rest (dictInsert m (imgKey b.name) b) k]
      rw [hb, dictFind_dictInsert_self]
      simp only [hb, beq_self_eq_true, if_true, getLast?_cons_or]
      cases h : (rest.filter (fun b => imgKey b.name == k)).getLast? <;> simp
    · rw [dictFind_image_lookup_aux rest (dictInsert m (imgKey b.name) b) k]
      rw [dictFind_dictInsert_other m (imgKey b.name) k b hb]
      simp [hb]

/-- The final image lookup sends each key to the last uploaded blob
whose derived key equals it. -/
theorem dictFind_image_lookup (imgs : List Blob) (k : String) :
    dictFind (image_lookup imgs) k
      = (imgs.filter (fun b => imgKey b.name == k)).getLast? := by
  rw [image_lookup, dictFind_image_lookup_aux imgs [] k]
  simp [dictFind]

/-- The row loop keeps exactly the rows whose trimmed key is present in
the lookup, in row order, and emits one missing-image message for each
other row, in row order. -/
theorem matchRowsLoop_spec (lookup : List (String × Blob)) :
    ∀ rows : List Row,
      matchRowsLoop lookup rows =
        ((rows.filter (fun row => (dictFind lookup (pyStrip row.image_name)).isSome)).map
            (fun row => ⟨pyStrip row.image_name, pyStrip row.value,
              (dictFind lookup (pyStrip row.image_name)).getD ⟨"", 0⟩⟩),
         (rows.filter (fun row => (dictFind lookup (pyStrip row.image_name)).isNone)).map
            (fun row => rowMissingMsg (pyStrip row.image_name)))
  | [] => rfl
  | row :: rest => by
    simp only [matchRowsLoop, matchRowsLoop_spec lookup rest, List.filter_cons]
    cases h : dictFind lookup (pyStrip row.image_name) <;> simp [h]

/-! ### Helper lemmas describing the four branches of the workflow -/

theorem run_validation_fail (c : Collab) (ts : String) (csv_file : CsvFile)
    (uploaded_images : List Blob) (st : Store) (e : String)
    (hv : validate_inputs csv_file uploaded_images = .error e) :
    run_full_workflow c ts csv_file uploaded_images st
      = ({ initResults with errors := ["Validation Error: " ++ e] }, noEffects, st) := by
  simp [run_full_workflow, run_full_workflow_body, hv, initResults]

theorem run_matching_fail (c : Collab) (ts : String) (csv_file : CsvFile)
    (uploaded_images : List Blob) (st : Store) (df : Frame) (validated : List Blob)
    (hv : validate_inputs csv_file uploaded_images = .ok (df, validated))
    (hm : (match_csv_with_images df validated).1 = []) :
    run_full_workflow c ts csv_file uploaded_images st
      = ({ initResults with
            errors := ["Matching Error: No matching records found between CSV and images"] },
          noEffects, st) := by
  simp [run_full_workflow, run_full_workflow_body, match_data, hv, hm, initResults]

theorem run_storage_fail (c : Collab) (ts : String) (csv_file : CsvFile)
    (uploaded_images : List Blob) (st : Store) (df : Frame) (validated : List Blob)
    (e : String)
    (hv : validate_inputs csv_file uploaded_images = .ok (df, validated))
    (hm : (match_csv_with_images df validated).1 ≠ [])
    (hu : c.upload_csv = .error e) :
    run_full_workflow c ts csv_file uploaded_images st
      = ({ initResults with
            errors := (match_csv_with_images df validated).2
              ++ ["S3 Error: S3 setup failed: " ++ e],
            s3_folder := create_s3_folder ts },
          { noEffects with folder_creates := 1, csv_uploads := 1 }, st) := by
  simp [run_full_workflow, run_full_workflow_body, match_data, setup_s3_storage,
    hv, hm, hu, initResults, noEffects]
  rw [show ("S3 Error: S3 setup failed: " : String)
      = "S3 Error: " ++ "S3 setup failed: " by decide]
  rw [String.append_assoc]

theorem run_processing (c : Collab) (ts : String) (csv_file : CsvFile)
    (uploaded_images : List Blob) (st : Store) (df : Frame) (validated : List Blob)
    (url : String)
    (hv : validate_inputs csv_file uploaded_images = .ok (df, validated))
    (hm : (match_csv_with_images df validated).1 ≠ [])
    (hu : c.upload_csv = .ok url) :
    run_full_workflow c ts csv_file uploaded_images st
      = (let res2 : ProcessingResults :=
          { total_records := 0, successful := 0, failed := 0, processing_time := 0,
            errors := (match_csv_with_images df validated).2, success_items := [],
            s3_folder := create_s3_folder ts, csv_s3_url := url }
         let pr := process_records (workflowStep c (create_s3_folder ts))
          (match_csv_with_images df validated).1 res2
          (st, { noEffects with folder_creates := 1, csv_uploads := 1 })
         (pr.1.1, pr.2.2, pr.2.1)) := by
  simp [run_full_workflow, run_full_workflow_body, match_data, setup_s3_storage,
    hv, hm, hu, initResults, noEffects]

/-! ### Concrete fixtures used by counterexamples and witnesses -/

/-- A one-row CSV whose key is "1". -/
def csvOne : CsvFile := ⟨10, .ok ⟨["image_name", "value"], [⟨"1", "red bottle"⟩]⟩⟩

/-- One image whose derived key is "1". -/
def imgsOne : List Blob := [⟨"1.jpg", 5⟩]

/-- A two-row CSV with keys "1" and "X". -/
def csvTwo : CsvFile := ⟨10, .ok ⟨["image_name", "value"], [⟨"1", "a"⟩, ⟨"X", "b"⟩]⟩⟩

/-- A one-row CSV whose key is "X". -/
def csvRowX : CsvFile := ⟨10, .ok ⟨["image_name", "value"], [⟨"X", "d"⟩]⟩⟩

/-- One image whose derived key is "Y". -/
def imgsYOnly : List Blob := [⟨"Y.jpg", 5⟩]

/-- Collaborators that always succeed. -/
def collabOk : Collab :=
  ⟨fun _ => .ok (), fun _ => .ok ("url"), fun _ => true, .ok ("csvurl")⟩

/-- A matched record used in loop-level witnesses. -/
def rec0 : MatchedRecord := ⟨"1", "d", ⟨"1.jpg", 5⟩⟩

/-- A per-record step that always reports a returned failure. -/
def errStep : MatchedRecord → Unit → StepOutcome × Unit :=
  fun _ _ => (.err ("boom"), ())

/-- A per-record step that always succeeds. -/
def okStep : MatchedRecord → Unit → StepOutcome × Unit :=
  fun _ _ => (.ok, ())

/-! ### Claim theorems -/

/-- C1, counterexample.  The claim asserts
`successful + skipped + failed == total_records` with `skipped` a field
of the result aggregate.  The aggregate built by `RAGProcessor.__init__`
has no skipped field at all, and the loop in `process_records`
increments `successful` or `failed` for every record, so on a run whose
single record is already persisted (one skip event, counted here by the
`skips` effect counter) the sum `successful + skips + failed` is 2 while
`total_records` is 1. -/
theorem C1_counterexample :
    (run_full_workflow collabOk ("T") csvOne imgsOne ["1"]).1.successful
      + (run_full_workflow collabOk ("T") csvOne imgsOne ["1"]).2.1.skips
      + (run_full_workflow collabOk ("T") csvOne imgsOne ["1"]).1.failed
      ≠ (run_full_workflow collabOk ("T") csvOne imgsOne ["1"]).1.total_records := by
  decide

/-- C1, amended.  For every run of `run_full_workflow` (aborted or not)
the returned aggregate satisfies `successful + failed = total_records`;
aborted runs have all three equal to zero.  The aggregate has no
`skipped` or `skipped_items` field, so this two-term conservation is the
one the code maintains. -/
theorem C1_conservation (c : Collab) (ts : String) (csv_file : CsvFile)
    (uploaded_images : List Blob) (st : Store) :
    (run_full_workflow c ts csv_file uploaded_images st).1.successful
      + (run_full_workflow c ts csv_file uploaded_images st).1.failed
      = (run_full_workflow c ts csv_file uploaded_images st).1.total_records := by
  rcases hv : validate_inputs csv_file uploaded_images with e | ⟨df, validated⟩
  · rw [run_validation_fail c ts _ _ st e hv]
    rfl
  · by_cases hm : (match_csv_with_images df validated).1 = []
    · rw [run_matching_fail c ts _ _ st df validated hv hm]
      rfl
    · rcases hu : c.upload_csv with e2 | url
      · rw [run_storage_fail c ts _ _ st df validated e2 hv hm hu]
        rfl
      · rw [run_processing c ts _ _ st df validated url hv hm hu]
        simp only [process_records_fst, processLoop_conserve, processLoop_total_records]
        omega

/-- C2, counterexample.  The claim asserts that a record whose key
already exists is set aside by incrementing a `skipped` counter and
appending to a `skipped_items` list.  The aggregate has no such fields:
on a run whose single record key "1" is already in the store, the
existence check fires (one skip event, no embed, upload, or insert),
yet the record is counted in `successful` and appended to
`success_items`, not recorded separately. -/
theorem C2_counterexample :
    (run_full_workflow collabOk ("T") csvOne imgsOne ["1"]).2.1.skips = 1
    ∧ (run_full_workflow collabOk ("T") csvOne imgsOne ["1"]).2.1.embeds = 0
    ∧ (run_full_workflow collabOk ("T") csvOne imgsOne ["1"]).2.1.image_uploads = 0
    ∧ (run_full_workflow collabOk ("T") csvOne imgsOne ["1"]).2.1.inserts = 0
    ∧ (run_full_workflow collabOk ("T") csvOne imgsOne ["1"]).1.successful = 1
    ∧ (run_full_workflow collabOk ("T") csvOne imgsOne ["1"]).1.success_items = ["1"] := by
  decide

/-- C2, amended.  For every matched record the existence check is
performed first; when the key is already in the store, no embedding
call, no upload call and no insert call is made for that record, the
store is unchanged, and the record is reported through the success path
of the aggregate (`successful` incremented, name appended to
`success_items`); processing continues with the remaining records. -/
theorem C2_skip_precedence (c : Collab) (folder : String) (rec : MatchedRecord)
    (rest : List MatchedRecord) (res : ProcessingResults) (st : Store) (eff : Effects)
    (h : List.contains st rec.image_name = true) :
    processLoop (workflowStep c folder) (rec :: rest) res (st, eff)
      = processLoop (workflowStep c folder) rest
          { res with
            successful := res.successful + 1
            success_items := res.success_items ++ [rec.image_name] }
          (st, { eff with skips := eff.skips + 1 }) := by
  have h2 : rec.image_name ∈ st := by simpa using h
  simp [processLoop, workflowStep, process_image_record, h2, applyOutcome]

/-- Witness for C2: a concrete skip with all three collaborator
counters untouched. -/
theorem C2_skip_precedence_witness :
    processLoop (workflowStep collabOk ("F")) [rec0] initResults (["1"], noEffects)
      = ({ initResults with successful := 1, success_items := ["1"] },
          (["1"], { noEffects with skips := 1 })) := by
  rw [C2_skip_precedence collabOk ("F") rec0 [] initResults ["1"] noEffects (by decide)]
  decide

/-- C8.  A returned failure or a raised exception while processing one
record increments `failed` by exactly one, appends the single entry
built from the image name and the reason, and the loop continues with
the remaining records; every record is accounted for, so no per-record
failure aborts the batch. -/
theorem C8_failure_isolation :
    (∀ (σ : Type) (step : MatchedRecord → σ → StepOutcome × σ)
        (rec : MatchedRecord) (rest : List MatchedRecord)
        (res : ProcessingResults) (s s2 : σ) (m : String),
        step rec s = (.err m, s2) →
        processLoop step (rec :: rest) res s
          = processLoop step rest
              { res with
                failed := res.failed + 1
                errors := res.errors ++ [rec.image_name ++ ": " ++ m] } s2)
    ∧ (∀ (σ : Type) (step : MatchedRecord → σ → StepOutcome × σ)
        (rec : MatchedRecord) (rest : List MatchedRecord)
        (res : ProcessingResults) (s s2 : σ) (m : String),
        step rec s = (.exn m, s2) →
        processLoop step (rec :: rest) res s
          = processLoop step rest
              { res with
                failed := res.failed + 1
                errors := res.errors ++ [rec.image_name ++ ": Unexpected error - " ++ m] } s2)
    ∧ (∀ (σ : Type) (step : MatchedRecord → σ → StepOutcome × σ)
        (l : List MatchedRecord) (res : ProcessingResults) (s : σ),
        (processLoop step l res s).1.successful + (processLoop step l res s).1.failed
          = res.successful + res.failed + l.length) := by
  refine ⟨?_, ?_, fun σ step l res s => processLoop_conserve step l res s⟩
  · intro σ step rec rest res s s2 m h
    simp [processLoop, h, applyOutcome]
  · intro σ step rec rest res s s2 m h
    simp [processLoop, h, applyOutcome]

/-- Witness for C8: one failing record yields exactly one `failed`
count and one formatted error entry. -/
theorem C8_failure_isolation_witness :
    processLoop errStep [rec0] initResults ()
      = ({ initResults with failed := 1, errors := ["1: boom"] }, ()) := by
  rw [C8_failure_isolation.1 Unit errStep rec0 [] initResults () () ("boom") rfl]
  decide

/-- C9.  The `successful` counter always equals the length of
`success_items`: the loop preserves the equality from any state
satisfying it, and the full workflow, which starts both at zero,
returns an aggregate satisfying it. -/
theorem C9_success_agreement :
    (∀ (σ : Type) (step : MatchedRecord → σ → StepOutcome × σ)
        (l : List MatchedRecord) (res : ProcessingResults) (s : σ),
        res.successful = res.success_items.length →
        (processLoop step l res s).1.successful
          = (processLoop step l res s).1.success_items.length)
    ∧ (∀ (c : Collab) (ts : String) (csv_file : CsvFile)
        (uploaded_images : List Blob) (st : Store),
        (run_full_workflow c ts csv_file uploaded_images st).1.successful
          = (run_full_workflow c ts csv_file uploaded_images st).1.success_items.length) := by
  refine ⟨fun σ step l res s h => processLoop_success_items step l res s h, ?_⟩
  intro c ts csv_file uploaded_images st
  rcases hv : validate_inputs csv_file uploaded_images with e | ⟨df, validated⟩
  · rw [run_validation_fail c ts _ _ st e hv]
    rfl
  · by_cases hm : (match_csv_with_images df validated).1 = []
    · rw [run_matching_fail c ts _ _ st df validated hv hm]
      rfl
    · rcases hu : c.upload_csv with e2 | url
      · rw [run_storage_fail c ts _ _ st df validated e2 hv hm hu]
        rfl
      · rw [run_processing c ts _ _ st df validated url hv hm hu]
        simp only [process_records_fst]
        exact processLoop_success_items _ _ _ _ rfl

/-- Witness for C9: the preservation part applied at a concrete state. -/
theorem C9_success_agreement_witness :
    (processLoop okStep [rec0] initResults ()).1.successful
      = (processLoop okStep [rec0] initResults ()).1.success_items.length :=
  C9_success_agreement.1 Unit okStep [rec0] initResults () rfl

/-- C10.  The workflow body never reaches the outer exception handler:
for every input and every collaborator oracle the body returns normally
and `run_full_workflow` returns exactly the aggregate the body built,
so no exception propagates to the caller (collaborator failures having
been converted to result entries by the inner stages). -/
theorem C10_workflow_total (c : Collab) (ts : String) (csv_file : CsvFile)
    (uploaded_images : List Blob) (st : Store) :
    ∃ out, run_full_workflow_body c ts csv_file uploaded_images st = .ok out
      ∧ run_full_workflow c ts csv_file uploaded_images st = out := by
  rcases hv : validate_inputs csv_file uploaded_images with e | ⟨df, validated⟩
  · refine ⟨_, ?_, run_validation_fail c ts _ _ st e hv⟩
    simp [run_full_workflow_body, hv, initResults]
  · by_cases hm : (match_csv_with_images df validated).1 = []
    · refine ⟨_, ?_, run_matching_fail c ts _ _ st df validated hv hm⟩
      simp [run_full_workflow_body, match_data, hv, hm, initResults]
    · rcases hu : c.upload_csv with e2 | url
      · refine ⟨_, ?_, run_storage_fail c ts _ _ st df validated e2 hv hm hu⟩
        simp [run_full_workflow_body, match_data, setup_s3_storage, hv, hm, hu,
          initResults, noEffects]
        rw [show ("S3 Error: S3 setup failed: " : String)
            = "S3 Error: " ++ "S3 setup failed: " by decide]
        rw [String.append_assoc]
      · refine ⟨_, ?_, run_processing c ts _ _ st df validated url hv hm hu⟩
        simp [run_full_workflow_body, match_data, setup_s3_storage, hv, hm, hu,
          initResults, noEffects]

/-- C3, counterexample.  The claim says the lookup key is the filename
with its extension stripped.  The source removes every occurrence of
the substrings `.jpg`, `.jpeg`, `.png` instead: on the filename
`42.png.jpg` the source key is `42` while stripping the extension gives
`42.png`. -/
theorem C3_counterexample :
    imgKey ("42.png.jpg") = "42"
    ∧ specStripExt ("42.png.jpg") = "42.png"
    ∧ imgKey ("42.png.jpg") ≠ specStripExt ("42.png.jpg") := by
  decide

/-- C3, amended.  The lookup key of a blob is its filename with every
occurrence of the substrings `.jpg`, `.jpeg`, `.png` removed, in that
order (on the example `42.jpg` this gives `42`); the final lookup sends
a key to the last blob of the batch deriving that key (last-wins
overwrite for duplicate keys); and a key is present in the lookup
exactly when some blob derives it by exact string equality (no case
folding, no fuzzy matching). -/
theorem C3_key_derivation (imgs : List Blob) (k : String) :
    imgKey ("42.jpg") = "42"
    ∧ dictFind (image_lookup imgs) k
        = (imgs.filter (fun b => imgKey b.name == k)).getLast?
    ∧ ((dictFind (image_lookup imgs) k).isSome = true
        ↔ ∃ b ∈ imgs, imgKey b.name = k) := by
  refine ⟨by decide, dictFind_image_lookup imgs k, ?_⟩
  rw [dictFind_image_lookup imgs k]
  constructor
  · intro hs
    rcases hgl : (imgs.filter (fun b => imgKey b.name == k)).getLast? with _ | b
    · rw [hgl] at hs
      simp at hs
    · have hb := List.mem_of_getLast?_eq_some hgl
      have hsplit := List.mem_filter.mp hb
      exact ⟨b, hsplit.1, by simpa using hsplit.2⟩
  · rintro ⟨b, hbmem, hbkey⟩
    have hmem : b ∈ imgs.filter (fun b => imgKey b.name == k) :=
      List.mem_filter.mpr ⟨hbmem, by simpa using hbkey⟩
    have hne := List.ne_nil_of_mem hmem
    rw [List.getLast?_isSome]
    exact hne

/-- C4.  The matcher returns exactly the rows whose trimmed key is in
the blob lookup, in table row order; one missing-image message per
unmatched row, in row order, followed by one missing-record message per
lookup key not used by any matched record; and an empty table always
yields an empty matched list. -/
theorem C4_symmetric_matching (df : Frame) (imgs : List Blob) :
    (match_csv_with_images df imgs).1
      = (df.rows.filter
          (fun row => (dictFind (image_lookup imgs) (pyStrip row.image_name)).isSome)).map
          (fun row => ⟨pyStrip row.image_name, pyStrip row.value,
            (dictFind (image_lookup imgs) (pyStrip row.image_name)).getD ⟨"", 0⟩⟩)
    ∧ (match_csv_with_images df imgs).2
      = (df.rows.filter
          (fun row => (dictFind (image_lookup imgs) (pyStrip row.image_name)).isNone)).map
          (fun row => rowMissingMsg (pyStrip row.image_name))
        ++ (((image_lookup imgs).map (fun p => p.1)).filter
            (fun k => !((match_csv_with_images df imgs).1.any
              (fun r => r.image_name == k)))).map keyMissingMsg
    ∧ (∀ columns, (match_csv_with_images ⟨columns, []⟩ imgs).1 = []) := by
  have h := matchRowsLoop_spec (image_lookup imgs) df.rows
  refine ⟨?_, ?_, fun columns => rfl⟩
  · simp only [match_csv_with_images, h]
  · simp only [match_csv_with_images, h]

/-- C5.  Each of the three early gates aborts the workflow with all
counts zero, exactly one gate diagnostic, and no later stage executed:
a validation failure leaves the initial aggregate with one validation
entry and zero effect counters; zero matched records leave one matching
entry, zero effect counters (no folder created, no uploads, no
per-record processing) and an empty folder field; a storage-preparation
failure leaves the matching warnings plus one S3 entry, the folder
path, one folder creation, one CSV upload attempt, and no embedding,
image-upload, insert, or skip activity. -/
theorem C5_abort_gating :
    (∀ (c : Collab) (ts : String) (csv_file : CsvFile) (uploaded_images : List Blob)
        (st : Store) (e : String),
        validate_inputs csv_file uploaded_images = .error e →
        run_full_workflow c ts csv_file uploaded_images st
          = ({ initResults with errors := ["Validation Error: " ++ e] }, noEffects, st))
    ∧ (∀ (c : Collab) (ts : String) (csv_file : CsvFile) (uploaded_images : List Blob)
        (st : Store) (df : Frame) (validated : List Blob),
        validate_inputs csv_file uploaded_images = .ok (df, validated) →
        (match_csv_with_images df validated).1 = [] →
        run_full_workflow c ts csv_file uploaded_images st
          = ({ initResults with
                errors := ["Matching Error: No matching records found between CSV and images"] },
              noEffects, st))
    ∧ (∀ (c : Collab) (ts : String) (csv_file : CsvFile) (uploaded_images : List Blob)
        (st : Store) (df : Frame) (validated : List Blob) (e : String),
        validate_inputs csv_file uploaded_images = .ok (df, validated) →
        (match_csv_with_images df validated).1 ≠ [] →
        c.upload_csv = .error e →
        run_full_workflow c ts csv_file uploaded_images st
          = ({ initResults with
                errors := (match_csv_with_images df validated).2
                  ++ ["S3 Error: S3 setup failed: " ++ e]
                s3_folder := create_s3_folder ts },
              { noEffects with folder_creates := 1, csv_uploads := 1 }, st)) := by
  refine ⟨?_, ?_, ?_⟩
  · intro c ts csv_file uploaded_images st e hv
    exact run_validation_fail c ts csv_file uploaded_images st e hv
  · intro c ts csv_file uploaded_images st df validated hv hm
    exact run_matching_fail c ts csv_file uploaded_images st df validated hv hm
  · intro c ts csv_file uploaded_images st df validated e hv hm hu
    exact run_storage_fail c ts csv_file uploaded_images st df validated e hv hm hu

/-- Witness for C5: the zero-match gate at a concrete input. -/
theorem C5_abort_gating_witness :
    run_full_workflow collabOk ("T") csvRowX imgsYOnly []
      = ({ initResults with
            errors := ["Matching Error: No matching records found between CSV and images"] },
          noEffects, []) :=
  C5_abort_gating.2.1 collabOk ("T") csvRowX imgsYOnly []
    ⟨["image_name", "value"], [⟨"X", "d"⟩]⟩ imgsYOnly rfl rfl

/-- C6, counterexample.  The claim says missing-item messages reach the
result aggregate in every run where the matcher executes, including
zero-match aborts.  In `match_data` the zero-match early return happens
before the messages are stored: on a table with key X and an image with
key Y the matcher produces two missing-item messages, yet the aborted
run records only the matching-error diagnostic. -/
theorem C6_counterexample :
    rowMissingMsg ("X")
        ∈ (match_csv_with_images ⟨["image_name", "value"], [⟨"X", "d"⟩]⟩ imgsYOnly).2
    ∧ (run_full_workflow collabOk ("T") csvRowX imgsYOnly []).1.errors
        = ["Matching Error: No matching records found between CSV and images"]
    ∧ rowMissingMsg ("X") ∉ (run_full_workflow collabOk ("T") csvRowX imgsYOnly []).1.errors := by
  decide

/-- C6, amended.  In every run in which the matcher executes and finds
at least one matched record, every missing-item message it produces is
in the errors list of the returned aggregate, whatever happens later
(storage failure, per-record failures, or full success); in zero-match
aborted runs the messages are dropped and only the matching-error
diagnostic is recorded. -/
theorem C6_matching_warnings (c : Collab) (ts : String) (csv_file : CsvFile)
    (uploaded_images : List Blob) (st : Store) (df : Frame) (validated : List Blob)
    (hv : validate_inputs csv_file uploaded_images = .ok (df, validated))
    (hm : (match_csv_with_images df validated).1 ≠ []) :
    ∀ m ∈ (match_csv_with_images df validated).2,
      m ∈ (run_full_workflow c ts csv_file uploaded_images st).1.errors := by
  intro m hmem
  rcases hu : c.upload_csv with e | url
  · rw [run_storage_fail c ts _ _ st df validated e hv hm hu]
    exact List.mem_append_left _ hmem
  · rw [run_processing c ts _ _ st df validated url hv hm hu]
    show m ∈ (process_records (workflowStep c (create_s3_folder ts))
        (match_csv_with_images df validated).1
        { total_records := 0, successful := 0, failed := 0, processing_time := 0,
          errors := (match_csv_with_images df validated).2, success_items := [],
          s3_folder := create_s3_folder ts, csv_s3_url := url }
        (st, { noEffects with folder_creates := 1, csv_uploads := 1 })).1.1.errors
    rw [process_records_fst]
    obtain ⟨t, ht⟩ := processLoop_errors_mono (workflowStep c (create_s3_folder ts))
      (match_csv_with_images df validated).1
      { total_records := (match_csv_with_images df validated).1.length, successful := 0,
        failed := 0, processing_time := 0,
        errors := (match_csv_with_images df validated).2, success_items := [],
        s3_folder := create_s3_folder ts, csv_s3_url := url }
      (st, { noEffects with folder_creates := 1, csv_uploads := 1 })
    rw [ht]
    exact List.mem_append_left _ hmem

/-- Witness for C6: a run with one matched record and one unmatched row
keeps the missing-image warning in the final errors list. -/
theorem C6_matching_warnings_witness :
    rowMissingMsg ("X") ∈ (run_full_workflow collabOk ("T") csvTwo imgsOne []).1.errors := by
  have h := C6_matching_warnings collabOk ("T") csvTwo imgsOne []
    ⟨["image_name", "value"], [⟨"1", "a"⟩, ⟨"X", "b"⟩]⟩ imgsOne rfl (by decide)
  exact h (rowMissingMsg ("X")) (by decide)

/-- C7.  `validate_images` reports success exactly when at least one
blob passes the extension and size checks; the empty batch gets its own
distinct message; the kept list is exactly the passing blobs; the
rejection reasons form one entry per rejected blob, in order; and a
nonempty batch with at least one rejection reports the header plus the
newline-joined reasons. -/
theorem C7_image_validation (l : List Blob) :
    ((validate_images l).1 = true ↔ (validate_images l).2.2 ≠ [])
    ∧ (l = [] → validate_images l = (false, "No images uploaded", []))
    ∧ (validate_images l).2.2 = l.filter (fun b => (imageReject b).isNone)
    ∧ l.filterMap imageReject
        = (l.filter (fun b => (imageReject b).isSome)).map
            (fun b => (imageReject b).getD (""))
    ∧ (l ≠ [] → l.filterMap imageReject ≠ [] →
        (validate_images l).2.1
          = "Image validation errors:\n" ++ joinLines (l.filterMap imageReject)) := by
  refine ⟨?_, ?_, ?_, ?_, ?_⟩
  · by_cases hl : l = []
    · subst hl
      simp [validate_images]
    · by_cases he : l.filterMap imageReject = []
      · have hall : ∀ b ∈ l, imageReject b = none := List.filterMap_eq_nil_iff.mp he
        have hkeep : l.filter (fun b => (imageReject b).isNone) = l :=
          List.filter_eq_self.mpr (fun b hb => by simp [hall b hb])
        simp [validate_images, hl, he, hkeep]
      · simp [validate_images, hl, he, List.length_pos]
  · intro hl
    subst hl
    rfl
  · by_cases hl : l = []
    · subst hl
      rfl
    · by_cases he : l.filterMap imageReject = [] <;>
        simp [validate_images, hl, he]
  · induction l with
    | nil => rfl
    | cons b t ih =>
      cases hb : imageReject b <;> simp [hb, ih]
  · intro hl he
    simp [validate_images, hl, he]

/-- Witness for C7: the empty batch and a batch with one rejection. -/
theorem C7_image_validation_witness :
    validate_images [] = (false, "No images uploaded", [])
    ∧ (validate_images [⟨"a.gif", 1⟩, ⟨"b.jpg", 1⟩]).2.1
        = "Image validation errors:\na.gif: Unsupported format. Use: [png, jpg, jpeg]" := by
  refine ⟨(C7_image_validation []).2.1 rfl, ?_⟩
  rw [(C7_image_validation [⟨"a.gif", 1⟩, ⟨"b.jpg", 1⟩]).2.2.2.2 (by decide) (by decide)]
  decide

end RagIngest
